import Mathlib

/-!
Shallow embedding of the hand-gesture classification service (`app/main.py`):
landmark normalization, the `/predict` request orchestrator with its
validation sequence and metrics counters, and the `/app-metrics` report.

Numeric modelling: numpy float64 values are modelled as `FloatV`, a finite
real number or a single non-finite marker (covering NaN and ±Inf), so that
division by zero produces a non-finite value exactly as numpy does instead
of Lean's `x / 0 = 0` convention. Landmarks arriving in the JSON payload
are finite decimals, modelled as rationals and coerced into the pipeline.
-/

open scoped Classical

/-- A numpy float64 scalar: either a finite real number or a non-finite
result (NaN or ±Inf, not distinguished — the service only ever tests
finiteness downstream). -/
inductive FloatV : Type
  | fin : ℝ → FloatV
  | nonfin : FloatV

namespace FloatV

/-- numpy subtraction: finite minus finite is finite (reals do not
overflow in this model); anything involving a non-finite value is
non-finite. -/
def sub : FloatV → FloatV → FloatV
  | fin a, fin b => fin (a - b)
  | _, _ => nonfin

/-- numpy addition. -/
def add : FloatV → FloatV → FloatV
  | fin a, fin b => fin (a + b)
  | _, _ => nonfin

/-- numpy multiplication. -/
def mul : FloatV → FloatV → FloatV
  | fin a, fin b => fin (a * b)
  | _, _ => nonfin

/-- numpy division: a finite value divided by zero is non-finite
(±Inf, or NaN for 0/0). -/
noncomputable def div : FloatV → FloatV → FloatV
  | fin a, fin b => if b = 0 then nonfin else fin (a / b)
  | _, _ => nonfin

/-- `np.sqrt`: NaN on negative input, finite square root otherwise. -/
noncomputable def sqrtV : FloatV → FloatV
  | fin a => if a < 0 then nonfin else fin (Real.sqrt a)
  | nonfin => nonfin

/-- Whether the value is finite. -/
def isFin : FloatV → Bool
  | fin _ => true
  | nonfin => false

/-- The underlying real number of a finite value (0 for non-finite). -/
def valD : FloatV → ℝ
  | fin a => a
  | nonfin => 0

@[simp] theorem sub_fin_fin (a b : ℝ) : sub (fin a) (fin b) = fin (a - b) := rfl

@[simp] theorem add_fin_fin (a b : ℝ) : add (fin a) (fin b) = fin (a + b) := rfl

@[simp] theorem mul_fin_fin (a b : ℝ) : mul (fin a) (fin b) = fin (a * b) := rfl

theorem div_fin_fin (a b : ℝ) (hb : b ≠ 0) : div (fin a) (fin b) = fin (a / b) := by
  simp [div, hb]

@[simp] theorem div_fin_zero (a : ℝ) : div (fin a) (fin 0) = nonfin := by
  simp [div]

theorem sqrtV_fin (a : ℝ) (ha : 0 ≤ a) : sqrtV (fin a) = fin (Real.sqrt a) := by
  simp [sqrtV, not_lt.mpr ha]

@[simp] theorem isFin_fin (a : ℝ) : isFin (fin a) = true := rfl

@[simp] theorem isFin_nonfin : isFin nonfin = false := rfl

@[simp] theorem valD_fin (a : ℝ) : valD (fin a) = a := rfl

end FloatV

/-- The single-row pandas DataFrame `features` with columns
`x1..x21, y1..y21, z1..z21`; index `i : Fin 21` stands for landmark
`i+1` (so column `x1` is `x 0` and column `x13` is `x 12`). -/
structure DataFrame where
  x : Fin 21 → FloatV
  y : Fin 21 → FloatV
  z : Fin 21 → FloatV

/-- `normalize_landmarks` from `app/main.py`: capture the wrist
(`x1`, `y1`) and middle-fingertip (`x13`, `y13`) columns before the
loop, compute `scale_factor = sqrt((tipX-wristX)^2 + (tipY-wristY)^2)`
once from those raw values, then rewrite every x/y column as
`(value - wrist) / scale_factor`; z columns pass through. The captured
wrist arrays are not affected by the column rewrites (pandas column
assignment replaces the column). -/
noncomputable def normalize_landmarks (df : DataFrame) : DataFrame :=
  let wrist_x := df.x 0
  let wrist_y := df.y 0
  let middle_tip_x := df.x 12
  let middle_tip_y := df.y 12
  let scale_factor :=
    FloatV.sqrtV
      (FloatV.add
        (FloatV.mul (FloatV.sub middle_tip_x wrist_x) (FloatV.sub middle_tip_x wrist_x))
        (FloatV.mul (FloatV.sub middle_tip_y wrist_y) (FloatV.sub middle_tip_y wrist_y)))
  { x := fun i => FloatV.div (FloatV.sub (df.x i) wrist_x) scale_factor
    y := fun i => FloatV.div (FloatV.sub (df.y i) wrist_y) scale_factor
    z := df.z }

/-- `features = pd.DataFrame(np.array(landmarks).reshape(1, -1), columns
= [f'{axis}{i}' for i in range(1, 22) for axis in ['x', 'y', 'z']])`:
landmark i (1-based) takes `x` from slot `3*(i-1)`, `y` from slot
`3*(i-1)+1`, `z` from slot `3*(i-1)+2` of the 63-value input. -/
def buildFrame (landmarks : List ℚ) : DataFrame :=
  { x := fun i => FloatV.fin ((landmarks.getD (3 * i.val) 0 : ℚ) : ℝ)
    y := fun i => FloatV.fin ((landmarks.getD (3 * i.val + 1) 0 : ℚ) : ℝ)
    z := fun i => FloatV.fin ((landmarks.getD (3 * i.val + 2) 0 : ℚ) : ℝ) }

/-- A frame whose 63 entries are all finite, as consumed by the classifier. -/
structure FiniteFrame where
  x : Fin 21 → ℝ
  y : Fin 21 → ℝ
  z : Fin 21 → ℝ

/-- Whether every entry of the frame is finite. -/
def DataFrame.finiteB (df : DataFrame) : Bool :=
  (List.finRange 21).all fun i =>
    (df.x i).isFin && (df.y i).isFin && (df.z i).isFin

/-- Extract the finite frame when every entry is finite. -/
noncomputable def DataFrame.toFinite (df : DataFrame) : Option FiniteFrame :=
  if df.finiteB then
    some { x := fun i => (df.x i).valD
           y := fun i => (df.y i).valD
           z := fun i => (df.z i).valD }
  else none

/-- Modelled from the spec: the pretrained classifier `best_model_svm.pkl`
is an opaque artifact that is not part of the repository; only its
behaviour as described in the spec is modelled: `predict` selects a class
id, `predict_proba` returns the per-class probability distribution, and
any call fails with an InferenceError "on any internal computation fault
(shape mismatch, non-finite input, decoder miss)" — in particular sklearn
rejects non-finite features. -/
structure Classifier where
  predFn : FiniteFrame → ℕ
  probaFn : FiniteFrame → List ℝ

/-- The error text sklearn raises when the feature matrix holds NaN/Inf
(`Modelled from the spec:` non-finite input is an internal computation
fault of the opaque classifier). -/
def nonFiniteMsg : String :=
  "Input contains NaN, infinity or a value too large for dtype(float64)."

/-- `model.predict(features)[0]`: fails on non-finite input, otherwise
returns the predicted class id. -/
noncomputable def Classifier.predictOn (c : Classifier) (df : DataFrame) :
    Except String ℕ :=
  match df.toFinite with
  | some ff => Except.ok (c.predFn ff)
  | none => Except.error nonFiniteMsg

/-- `model.predict_proba(features)[0]`: fails on non-finite input,
otherwise returns the per-class probabilities. -/
noncomputable def Classifier.predictProbaOn (c : Classifier) (df : DataFrame) :
    Except String (List ℝ) :=
  match df.toFinite with
  | some ff => Except.ok (c.probaFn ff)
  | none => Except.error nonFiniteMsg

/-- `np.max(probabilities)`: raises on an empty array, otherwise the
maximum entry. -/
noncomputable def npMax : List ℝ → Except String ℝ
  | [] => Except.error "zero-size array to reduction operation maximum which has no identity"
  | a :: as => Except.ok (as.foldl max a)

/-- Modelled from the spec: the label decoder `label_encoder.pkl` is an
opaque artifact that is not part of the repository; per the spec it maps
an integer class id to a gesture name from a fixed vocabulary, failing on
a decoder miss. -/
structure LabelEncoder where
  classes : List String

/-- `label_encoder.inverse_transform([prediction])[0]`: the class name at
the given id, failing on an unseen id. -/
def LabelEncoder.inverse_transform (enc : LabelEncoder) (n : ℕ) :
    Except String String :=
  if h : n < enc.classes.length then Except.ok (enc.classes.get ⟨n, h⟩)
  else Except.error "y contains previously unseen labels"

/-- `GESTURE_MAPPING.get(gesture, None)`. -/
def GESTURE_MAPPING : String → Option String
  | "like" => some "up"
  | "dislike" => some "down"
  | "two_up" => some "right"
  | "two_up_inverted" => some "left"
  | _ => none

/-- The body of the inner `try` of `predict_gesture`: build the feature
frame, normalize, predict, take the max probability as confidence, decode
the label, look up the direction. An `Except.error` is the exception the
`except` clause catches, carrying `str(e)`. -/
noncomputable def inferenceResult (c : Classifier) (enc : LabelEncoder)
    (landmarks : List ℚ) : Except String (String × Option String × ℝ) := do
  let features := buildFrame landmarks
  let features := normalize_landmarks features
  let prediction ← c.predictOn features
  let probabilities ← c.predictProbaOn features
  let confidence ← npMax probabilities
  let gesture ← enc.inverse_transform prediction
  let direction := GESTURE_MAPPING gesture
  return (gesture, direction, confidence)

/-- The module-level metrics counters `prediction_count`, `error_count`,
`latency_sum`. -/
structure Metrics where
  prediction_count : ℕ
  error_count : ℕ
  latency_sum : ℚ

/-- The counters at process start. -/
def initialMetrics : Metrics :=
  { prediction_count := 0, error_count := 0, latency_sum := 0 }

/-- The request body as the handler sees it: `request.json()` either
raises (malformed) or yields a dict from which `data.get("landmarks")`
extracts an optional value (`none` models an absent or `null` field). -/
inductive Payload : Type
  | malformed : Payload
  | wellFormed : Option (List ℚ) → Payload

/-- The HTTP outcome of `/predict`: a success body
`{gesture, direction, confidence}` (the timestamp, wall-clock data, is
not modelled) or an `HTTPException(status_code, detail)`. -/
inductive Response : Type
  | success : String → Option String → ℝ → Response
  | failure : ℕ → String → Response

/-- `predict_gesture` from `app/main.py`: check the model and encoder are
loaded (500 "Model or encoder not loaded"), parse the JSON (400 "Invalid
JSON input"), check `not landmarks or len(landmarks) != 63` (400
"Expected 63 landmark features"), then run inference; on success add the
elapsed latency to `latency_sum` and bump `prediction_count`, on an
inference exception bump `error_count` and return 500 with the
exception's message. -/
noncomputable def predict_gesture (mo : Option Classifier)
    (eo : Option LabelEncoder) (m : Metrics) (p : Payload) (latency : ℚ) :
    Response × Metrics :=
  match mo, eo with
  | some c, some enc =>
    match p with
    | Payload.malformed => (Response.failure 400 "Invalid JSON input", m)
    | Payload.wellFormed lmso =>
      match lmso with
      | none => (Response.failure 400 "Expected 63 landmark features", m)
      | some lms =>
        if lms.isEmpty ∨ lms.length ≠ 63 then
          (Response.failure 400 "Expected 63 landmark features", m)
        else
          match inferenceResult c enc lms with
          | Except.ok (g, d, conf) =>
            (Response.success g d conf,
             { m with latency_sum := m.latency_sum + latency,
                      prediction_count := m.prediction_count + 1 })
          | Except.error e =>
            (Response.failure 500 e,
             { m with error_count := m.error_count + 1 })
  | _, _ => (Response.failure 500 "Model or encoder not loaded", m)

/-- The report built by `get_metrics` (`/app-metrics`); the wall-clock
fields (`last_prediction_time`, `uptime`) and the constant `status` are
not modelled. -/
structure MetricsReport where
  prediction_count : ℕ
  error_count : ℕ
  error_rate : ℚ
  average_latency : ℚ
  input_validation_errors : ℕ

/-- `get_metrics` from `app/main.py`. -/
def get_metrics (m : Metrics) : MetricsReport :=
  { prediction_count := m.prediction_count
    error_count := m.error_count
    error_rate := (m.error_count : ℚ) / ((max m.prediction_count 1 : ℕ) : ℚ)
    average_latency :=
      if 0 < m.prediction_count then m.latency_sum / (m.prediction_count : ℚ)
      else 0
    input_validation_errors := m.error_count }

/-- A request that reaches the inner `try` and succeeds. -/
noncomputable def succeedsB (c : Classifier) (enc : LabelEncoder) :
    Payload → Bool
  | Payload.wellFormed (some lms) =>
    if lms.isEmpty ∨ lms.length ≠ 63 then false
    else
      match inferenceResult c enc lms with
      | Except.ok _ => true
      | Except.error _ => false
  | _ => false

/-- A request that passes validation but whose inference raises. -/
noncomputable def failsAfterValidB (c : Classifier) (enc : LabelEncoder) :
    Payload → Bool
  | Payload.wellFormed (some lms) =>
    if lms.isEmpty ∨ lms.length ≠ 63 then false
    else
      match inferenceResult c enc lms with
      | Except.ok _ => false
      | Except.error _ => true
  | _ => false

/-- Serving a sequence of requests (payload with its measured latency),
threading the shared counters through `predict_gesture`. -/
noncomputable def processAll (mo : Option Classifier)
    (eo : Option LabelEncoder) (reqs : List (Payload × ℚ)) (m : Metrics) :
    Metrics :=
  reqs.foldl (fun acc r => (predict_gesture mo eo acc r.1 r.2).2) m

/-! ### Helper lemmas about the embedded pipeline -/

/-- A feature frame whose 63 entries are the given finite rationals. -/
def qFrame (X Y Z : Fin 21 → ℚ) : DataFrame :=
  { x := fun i => FloatV.fin ((X i : ℚ) : ℝ)
    y := fun i => FloatV.fin ((Y i : ℚ) : ℝ)
    z := fun i => FloatV.fin ((Z i : ℚ) : ℝ) }

theorem buildFrame_eq_qFrame (l : List ℚ) :
    buildFrame l =
      qFrame (fun i => l.getD (3 * i.val) 0) (fun i => l.getD (3 * i.val + 1) 0)
        (fun i => l.getD (3 * i.val + 2) 0) := rfl

/-- The scale factor the normalizer divides by, as a real number. -/
noncomputable def normScale (X Y : Fin 21 → ℚ) : ℝ :=
  Real.sqrt ((((X 12 : ℚ) : ℝ) - ((X 0 : ℚ) : ℝ)) ^ 2 +
    (((Y 12 : ℚ) : ℝ) - ((Y 0 : ℚ) : ℝ)) ^ 2)

theorem normScale_ne_zero (X Y : Fin 21 → ℚ)
    (hs : (X 12 - X 0) ^ 2 + (Y 12 - Y 0) ^ 2 ≠ 0) : normScale X Y ≠ 0 := by
  have hR : (((X 12 : ℚ) : ℝ) - ((X 0 : ℚ) : ℝ)) ^ 2 +
      (((Y 12 : ℚ) : ℝ) - ((Y 0 : ℚ) : ℝ)) ^ 2 ≠ 0 := by
    intro h0
    apply hs
    have : (((X 12 - X 0) ^ 2 + (Y 12 - Y 0) ^ 2 : ℚ) : ℝ) = 0 := by
      push_cast
      exact h0
    exact_mod_cast this
  have hpos : 0 < (((X 12 : ℚ) : ℝ) - ((X 0 : ℚ) : ℝ)) ^ 2 +
      (((Y 12 : ℚ) : ℝ) - ((Y 0 : ℚ) : ℝ)) ^ 2 :=
    lt_of_le_of_ne (by positivity) (Ne.symm hR)
  exact Real.sqrt_ne_zero'.mpr hpos

/-- Entry-wise description of `normalize_landmarks` on a finite frame with
non-degenerate pose: every x/y entry is the recentred, rescaled finite
value computed against the raw wrist and the raw scale; z passes through. -/
theorem normalize_qFrame (X Y Z : Fin 21 → ℚ)
    (hs : (X 12 - X 0) ^ 2 + (Y 12 - Y 0) ^ 2 ≠ 0) (i : Fin 21) :
    (normalize_landmarks (qFrame X Y Z)).x i
        = FloatV.fin ((((X i : ℚ) : ℝ) - ((X 0 : ℚ) : ℝ)) / normScale X Y)
      ∧ (normalize_landmarks (qFrame X Y Z)).y i
        = FloatV.fin ((((Y i : ℚ) : ℝ) - ((Y 0 : ℚ) : ℝ)) / normScale X Y)
      ∧ (normalize_landmarks (qFrame X Y Z)).z i = FloatV.fin ((Z i : ℚ) : ℝ) := by
  have hsr := normScale_ne_zero X Y hs
  have hmul : ∀ a : ℝ, a * a = a ^ 2 := fun a => (sq a).symm
  have hsqrt :
      FloatV.sqrtV
        (FloatV.add
          (FloatV.mul
            (FloatV.sub (FloatV.fin ((X 12 : ℚ) : ℝ)) (FloatV.fin ((X 0 : ℚ) : ℝ)))
            (FloatV.sub (FloatV.fin ((X 12 : ℚ) : ℝ)) (FloatV.fin ((X 0 : ℚ) : ℝ))))
          (FloatV.mul
            (FloatV.sub (FloatV.fin ((Y 12 : ℚ) : ℝ)) (FloatV.fin ((Y 0 : ℚ) : ℝ)))
            (FloatV.sub (FloatV.fin ((Y 12 : ℚ) : ℝ)) (FloatV.fin ((Y 0 : ℚ) : ℝ)))))
        = FloatV.fin (normScale X Y) := by
    rw [FloatV.sub_fin_fin, FloatV.sub_fin_fin, FloatV.mul_fin_fin, FloatV.mul_fin_fin,
      FloatV.add_fin_fin, hmul, hmul, FloatV.sqrtV_fin _ (by positivity), normScale]
  simp only [normalize_landmarks, qFrame]
  refine ⟨?_, ?_, trivial⟩
  · rw [hsqrt, FloatV.sub_fin_fin, FloatV.div_fin_fin _ _ hsr]
  · rw [hsqrt, FloatV.sub_fin_fin, FloatV.div_fin_fin _ _ hsr]

/-- When wrist and middle fingertip coincide the scale factor is zero and
the wrist's own x column, `(x1 - x1) / 0 = 0 / 0`, comes out non-finite. -/
theorem normalize_qFrame_degenerate (X Y Z : Fin 21 → ℚ)
    (hx : X 12 = X 0) (hy : Y 12 = Y 0) :
    (normalize_landmarks (qFrame X Y Z)).x 0 = FloatV.nonfin := by
  simp only [normalize_landmarks, qFrame, hx, hy, FloatV.sub_fin_fin, sub_self,
    FloatV.mul_fin_fin, mul_zero, FloatV.add_fin_fin, add_zero, FloatV.sqrtV,
    lt_irrefl, if_false, Real.sqrt_zero, FloatV.div_fin_zero]

/-- If some entry of the frame is non-finite there is no finite frame to
hand to the classifier. -/
theorem toFinite_none_of_x0 (df : DataFrame) (h : df.x 0 = FloatV.nonfin) :
    df.toFinite = none := by
  rw [DataFrame.toFinite, if_neg]
  intro hall
  rw [DataFrame.finiteB, List.all_eq_true] at hall
  have h0 := hall 0 (List.mem_finRange 0)
  rw [h] at h0
  simp at h0

/-- A frame whose entries are all finite extracts to the frame of its
underlying values. -/
theorem toFinite_some (df : DataFrame) (fx fy fz : Fin 21 → ℝ)
    (hx : ∀ i, df.x i = FloatV.fin (fx i)) (hy : ∀ i, df.y i = FloatV.fin (fy i))
    (hz : ∀ i, df.z i = FloatV.fin (fz i)) :
    df.toFinite = some { x := fx, y := fy, z := fz } := by
  have hfin : df.finiteB = true := by
    rw [DataFrame.finiteB, List.all_eq_true]
    intro i _
    rw [hx i, hy i, hz i]
    rfl
  have ex : (fun i => (df.x i).valD) = fx := funext fun i => by rw [hx i]; rfl
  have ey : (fun i => (df.y i).valD) = fy := funext fun i => by rw [hy i]; rfl
  have ez : (fun i => (df.z i).valD) = fz := funext fun i => by rw [hz i]; rfl
  rw [DataFrame.toFinite, if_pos hfin]
  simp only [ex, ey, ez]

/-- `np.max` of a non-empty list, as a plain value. -/
noncomputable def listMaxD : List ℝ → ℝ
  | [] => 0
  | a :: as => as.foldl max a

theorem npMax_cons (a : ℝ) (as : List ℝ) :
    npMax (a :: as) = Except.ok (listMaxD (a :: as)) := rfl

theorem foldl_max_mem (as : List ℝ) : ∀ b : ℝ, as.foldl max b ∈ b :: as := by
  induction as with
  | nil => intro b; simp
  | cons a as ih =>
    intro b
    rw [List.foldl_cons]
    rcases List.mem_cons.mp (ih (max b a)) with h1 | h1
    · rw [h1]
      rcases max_choice b a with hm | hm <;> rw [hm]
      · exact List.mem_cons_self _ _
      · exact List.mem_cons.mpr (Or.inr (List.mem_cons_self _ _))
    · exact List.mem_cons.mpr (Or.inr (List.mem_cons.mpr (Or.inr h1)))

theorem le_foldl_max (as : List ℝ) : ∀ b q : ℝ, q ∈ b :: as → q ≤ as.foldl max b := by
  induction as with
  | nil =>
    intro b q hq
    rw [List.mem_singleton] at hq
    simp [hq]
  | cons a as ih =>
    intro b q hq
    rw [List.foldl_cons]
    rcases List.mem_cons.mp hq with rfl | hq'
    · exact le_trans (le_max_left q a) (ih (max q a) _ (List.mem_cons_self _ _))
    · rcases List.mem_cons.mp hq' with rfl | hq''
      · exact le_trans (le_max_right b q) (ih (max b q) _ (List.mem_cons_self _ _))
      · exact ih (max b a) q (List.mem_cons.mpr (Or.inr hq''))

theorem listMaxD_mem (a : ℝ) (as : List ℝ) : listMaxD (a :: as) ∈ a :: as :=
  foldl_max_mem as a

theorem le_listMaxD (a q : ℝ) (as : List ℝ) (hq : q ∈ a :: as) :
    q ≤ listMaxD (a :: as) :=
  le_foldl_max as a q hq

theorem except_bind_err {α β : Type} (e : String) (f : α → Except String β) :
    (Except.error e : Except String α) >>= f = Except.error e := rfl

theorem except_bind_ok {α β : Type} (a : α) (f : α → Except String β) :
    (Except.ok a : Except String α) >>= f = f a := rfl

theorem npMax_of_ne_nil (ls : List ℝ) (h : ls ≠ []) :
    npMax ls = Except.ok (listMaxD ls) := by
  cases ls with
  | nil => exact absurd rfl h
  | cons a as => rfl

/-- A degenerate pose (wrist and middle fingertip at the same x/y
position) drives the whole inference body into the non-finite-input
failure: the classifier call raises before any result is produced. -/
theorem inferenceResult_degenerate (c : Classifier) (enc : LabelEncoder)
    (l : List ℚ) (hx : l.getD 36 0 = l.getD 0 0) (hy : l.getD 37 0 = l.getD 1 0) :
    inferenceResult c enc l = Except.error nonFiniteMsg := by
  have hnf : (normalize_landmarks (buildFrame l)).x 0 = FloatV.nonfin := by
    rw [buildFrame_eq_qFrame]
    exact normalize_qFrame_degenerate _ _ _ hx hy
  have hnone := toFinite_none_of_x0 _ hnf
  simp only [inferenceResult, Classifier.predictOn, hnone, except_bind_err]

/-- With a non-degenerate pose the whole inference body succeeds
(provided the opaque classifier returns a non-empty probability vector
and a class id the decoder knows): the normalized frame is finite, the
confidence is the maximum probability, and the gesture is the decoded
class name with its mapped direction. -/
theorem inferenceResult_ok (c : Classifier) (enc : LabelEncoder) (l : List ℚ)
    (hs : (l.getD 36 0 - l.getD 0 0) ^ 2 + (l.getD 37 0 - l.getD 1 0) ^ 2 ≠ 0)
    (hne : ∀ ff : FiniteFrame, c.probaFn ff ≠ [])
    (hdec : ∀ ff : FiniteFrame, c.predFn ff < enc.classes.length) :
    ∃ ff : FiniteFrame,
      (normalize_landmarks (buildFrame l)).toFinite = some ff ∧
      inferenceResult c enc l =
        Except.ok (enc.classes.get ⟨c.predFn ff, hdec ff⟩,
          GESTURE_MAPPING (enc.classes.get ⟨c.predFn ff, hdec ff⟩),
          listMaxD (c.probaFn ff)) := by
  have hnorm := normalize_qFrame (fun i => l.getD (3 * i.val) 0)
    (fun i => l.getD (3 * i.val + 1) 0) (fun i => l.getD (3 * i.val + 2) 0) hs
  rw [← buildFrame_eq_qFrame] at hnorm
  set X : Fin 21 → ℚ := fun i => l.getD (3 * i.val) 0 with hX
  set Y : Fin 21 → ℚ := fun i => l.getD (3 * i.val + 1) 0 with hY
  set Z : Fin 21 → ℚ := fun i => l.getD (3 * i.val + 2) 0 with hZ
  have hsome := toFinite_some (normalize_landmarks (buildFrame l))
    (fun i => (((X i : ℚ) : ℝ) - ((X 0 : ℚ) : ℝ)) / normScale X Y)
    (fun i => (((Y i : ℚ) : ℝ) - ((Y 0 : ℚ) : ℝ)) / normScale X Y)
    (fun i => ((Z i : ℚ) : ℝ))
    (fun i => (hnorm i).1) (fun i => (hnorm i).2.1) (fun i => (hnorm i).2.2)
  refine ⟨_, hsome, ?_⟩
  simp only [inferenceResult, Classifier.predictOn, Classifier.predictProbaOn,
    hsome, except_bind_ok, npMax_of_ne_nil _ (hne _),
    LabelEncoder.inverse_transform, dif_pos (hdec _)]
  rfl

/-- A trivial concrete classifier (one class, probability 1) used to
instantiate theorems at concrete inputs. -/
def cW : Classifier :=
  { predFn := fun _ => 0, probaFn := fun _ => [1] }

/-- A trivial concrete decoder with the single label "like". -/
def encW : LabelEncoder :=
  { classes := ["like"] }

theorem getD_mem_of_lt (ls : List ℝ) (n : ℕ) (h : n < ls.length) :
    ls.getD n 0 ∈ ls := by
  induction ls generalizing n with
  | nil => simp at h
  | cons a as ih =>
    cases n with
    | zero => simp [List.getD]
    | succ k =>
      rw [List.getD_cons_succ]
      exact List.mem_cons.mpr (Or.inr (ih k (by simpa using h)))

/-- How one request changes the three counters: a post-validation success
adds the latency and bumps `prediction_count`, a post-validation failure
bumps `error_count`, anything else leaves the state alone. -/
theorem predict_gesture_metrics (c : Classifier) (enc : LabelEncoder)
    (m : Metrics) (p : Payload) (lat : ℚ) :
    (predict_gesture (some c) (some enc) m p lat).2 =
      { prediction_count := m.prediction_count + (if succeedsB c enc p then 1 else 0)
        error_count := m.error_count + (if failsAfterValidB c enc p then 1 else 0)
        latency_sum := m.latency_sum + (if succeedsB c enc p then lat else 0) } := by
  cases p with
  | malformed => simp [predict_gesture, succeedsB, failsAfterValidB]
  | wellFormed lmso =>
    cases lmso with
    | none => simp [predict_gesture, succeedsB, failsAfterValidB]
    | some lms =>
      by_cases hv : lms.isEmpty ∨ lms.length ≠ 63
      · rcases hv with h | h
        · simp [predict_gesture, succeedsB, failsAfterValidB, List.isEmpty_iff.mp h]
        · simp [predict_gesture, succeedsB, failsAfterValidB, h]
      · rw [not_or] at hv
        obtain ⟨h1, h2⟩ := hv
        rw [not_not] at h2
        have h1' : ¬lms = [] := fun he => h1 (by simp [he])
        cases hinf : inferenceResult c enc lms with
        | ok v =>
          obtain ⟨g, d, conf⟩ := v
          simp [predict_gesture, succeedsB, failsAfterValidB, h1', h2, hinf]
        | error e =>
          simp [predict_gesture, succeedsB, failsAfterValidB, h1', h2, hinf]

/-- Cumulative effect of a request trace on the shared counters, starting
from any state: `prediction_count` counts the successes, `error_count`
counts the post-validation failures, `latency_sum` accumulates the
latencies of the successes. -/
theorem processAll_spec (c : Classifier) (enc : LabelEncoder) :
    ∀ (reqs : List (Payload × ℚ)) (m : Metrics),
      processAll (some c) (some enc) reqs m =
        { prediction_count :=
            m.prediction_count + reqs.countP (fun r => succeedsB c enc r.1)
          error_count :=
            m.error_count + reqs.countP (fun r => failsAfterValidB c enc r.1)
          latency_sum :=
            m.latency_sum +
              ((reqs.filter (fun r => succeedsB c enc r.1)).map Prod.snd).sum } := by
  intro reqs
  induction reqs with
  | nil => intro m; simp [processAll]
  | cons r rest ih =>
    intro m
    have hcons : processAll (some c) (some enc) (r :: rest) m =
        processAll (some c) (some enc) rest
          ((predict_gesture (some c) (some enc) m r.1 r.2).2) := rfl
    rw [hcons, ih, predict_gesture_metrics]
    cases hsucc : succeedsB c enc r.1 with
    | false =>
      cases hfail : failsAfterValidB c enc r.1 with
      | true =>
        simp only [List.countP_cons, List.filter_cons, hsucc, hfail]
        simp [Nat.add_comm, Nat.add_assoc, Nat.add_left_comm]
      | false =>
        simp only [List.countP_cons, List.filter_cons, hsucc, hfail]
        simp
    | true =>
      cases hfail : failsAfterValidB c enc r.1 with
      | true =>
        simp only [List.countP_cons, List.filter_cons, hsucc, hfail]
        simp [Nat.add_comm, Nat.add_assoc, Nat.add_left_comm, add_comm, add_assoc, add_left_comm]
      | false =>
        simp only [List.countP_cons, List.filter_cons, hsucc, hfail]
        simp [Nat.add_comm, Nat.add_assoc, Nat.add_left_comm, add_comm, add_assoc, add_left_comm]

/-! ### Claim theorems -/

/-- C2: for every feature frame with non-zero scale, normalization
computes `scale = sqrt((x13-x1)^2 + (y13-y1)^2)` once from the raw
(pre-mutation) values of landmarks 1 and 13 (`normScale` is built from
the frame's original entries only), and every landmark i in 1..21 gets
`x_i' = (x_i - x1_raw)/scale` and `y_i' = (y_i - y1_raw)/scale`, while
every z value is unchanged. -/
theorem C2_normalization_formula (X Y Z : Fin 21 → ℚ)
    (hs : (X 12 - X 0) ^ 2 + (Y 12 - Y 0) ^ 2 ≠ 0) :
    ∀ i : Fin 21,
      (normalize_landmarks (qFrame X Y Z)).x i
          = FloatV.fin ((((X i : ℚ) : ℝ) - ((X 0 : ℚ) : ℝ)) / normScale X Y)
        ∧ (normalize_landmarks (qFrame X Y Z)).y i
          = FloatV.fin ((((Y i : ℚ) : ℝ) - ((Y 0 : ℚ) : ℝ)) / normScale X Y)
        ∧ (normalize_landmarks (qFrame X Y Z)).z i = FloatV.fin ((Z i : ℚ) : ℝ) :=
  normalize_qFrame X Y Z hs

/-- Concrete test pose: landmark 13 sits at x-distance 1 from the
wrist, all other coordinates are zero. -/
def XW : Fin 21 → ℚ := fun i => if i = 12 then 1 else 0

/-- Concrete all-zero coordinate column. -/
def YW : Fin 21 → ℚ := fun _ => 0

/-- Witness for C2 at a concrete frame with non-zero scale. -/
theorem C2_normalization_formula_witness :
    ((XW 12 - XW 0) ^ 2 + (YW 12 - YW 0) ^ 2 ≠ 0)
    ∧ ∀ i : Fin 21,
      (normalize_landmarks (qFrame XW YW YW)).x i
          = FloatV.fin ((((XW i : ℚ) : ℝ) - ((XW 0 : ℚ) : ℝ)) / normScale XW YW)
        ∧ (normalize_landmarks (qFrame XW YW YW)).y i
          = FloatV.fin ((((YW i : ℚ) : ℝ) - ((YW 0 : ℚ) : ℝ)) / normScale XW YW)
        ∧ (normalize_landmarks (qFrame XW YW YW)).z i = FloatV.fin ((YW i : ℚ) : ℝ) :=
  ⟨by simp [XW, YW], C2_normalization_formula XW YW YW (by simp [XW, YW])⟩

/-- C5: the checks of `predict_gesture` run in a strict order and the
first failing check decides the outcome: not-loaded beats everything
(500 "Model or encoder not loaded"), then malformed JSON (400 "Invalid
JSON input"), then the 63-count check (400 "Expected 63 landmark
features"); on a validation failure the classifier is never consulted
(the result is one and the same for every classifier/decoder), and only
when all three checks pass does the classification run and decide the
response. -/
theorem C5_validation_order (mo : Option Classifier) (eo : Option LabelEncoder)
    (m : Metrics) (p : Payload) (lat : ℚ) :
    ((mo = none ∨ eo = none) →
      (predict_gesture mo eo m p lat).1 = Response.failure 500 "Model or encoder not loaded")
    ∧ (∀ c enc, mo = some c → eo = some enc → p = Payload.malformed →
      (predict_gesture mo eo m p lat).1 = Response.failure 400 "Invalid JSON input")
    ∧ (∀ c enc lmso, mo = some c → eo = some enc → p = Payload.wellFormed lmso →
      (lmso = none ∨ ∃ l, lmso = some l ∧ (l.isEmpty ∨ l.length ≠ 63)) →
      (predict_gesture mo eo m p lat).1 = Response.failure 400 "Expected 63 landmark features")
    ∧ (∀ c enc c' enc',
      (p = Payload.malformed ∨ p = Payload.wellFormed none ∨
        ∃ l, p = Payload.wellFormed (some l) ∧ (l.isEmpty ∨ l.length ≠ 63)) →
      predict_gesture (some c) (some enc) m p lat
        = predict_gesture (some c') (some enc') m p lat)
    ∧ (∀ c enc l, mo = some c → eo = some enc → p = Payload.wellFormed (some l) →
      ¬(l.isEmpty ∨ l.length ≠ 63) →
      (predict_gesture mo eo m p lat).1 =
        match inferenceResult c enc l with
        | Except.ok (g, d, conf) => Response.success g d conf
        | Except.error e => Response.failure 500 e) := by
  refine ⟨?_, ?_, ?_, ?_, ?_⟩
  · rintro (rfl | rfl)
    · rfl
    · cases mo <;> rfl
  · rintro c enc rfl rfl rfl
    rfl
  · rintro c enc lmso rfl rfl rfl (rfl | ⟨l, rfl, hl⟩)
    · rfl
    · simp only [predict_gesture]
      rw [if_pos hl]
  · rintro c enc c' enc' (rfl | rfl | ⟨l, rfl, hl⟩)
    · rfl
    · rfl
    · simp only [predict_gesture]
      rw [if_pos hl, if_pos hl]
  · rintro c enc l rfl rfl rfl hl
    simp only [predict_gesture]
    rw [if_neg hl]
    cases inferenceResult c enc l with
    | ok v => obtain ⟨g, d, conf⟩ := v; rfl
    | error e => rfl

/-- Witness for C5: with no classifier loaded, a malformed request is
answered with the not-loaded server error. -/
theorem C5_validation_order_witness :
    ((none : Option Classifier) = none ∨ (some encW : Option LabelEncoder) = none)
    ∧ (predict_gesture none (some encW) initialMetrics Payload.malformed 0).1
        = Response.failure 500 "Model or encoder not loaded" :=
  ⟨Or.inl rfl,
    (C5_validation_order none (some encW) initialMetrics Payload.malformed 0).1 (Or.inl rfl)⟩

/-- C8: a request that fails validation (model/encoder not loaded,
malformed JSON, missing/empty landmarks, or a wrong landmark count)
leaves the shared counters exactly as they were. -/
theorem C8_validation_failure_preserves_state (mo : Option Classifier)
    (eo : Option LabelEncoder) (m : Metrics) (p : Payload) (lat : ℚ)
    (h : mo = none ∨ eo = none ∨ p = Payload.malformed ∨ p = Payload.wellFormed none ∨
      ∃ l, p = Payload.wellFormed (some l) ∧ (l.isEmpty ∨ l.length ≠ 63)) :
    (predict_gesture mo eo m p lat).2 = m := by
  rcases h with rfl | rfl | rfl | rfl | ⟨l, rfl, hl⟩
  · rfl
  · cases mo <;> rfl
  · cases mo <;> cases eo <;> rfl
  · cases mo <;> cases eo <;> rfl
  · cases mo with
    | none => rfl
    | some c =>
      cases eo with
      | none => rfl
      | some enc =>
        simp only [predict_gesture]
        rw [if_pos hl]

/-- Witness for C8: a malformed request with a loaded model leaves the
initial counters untouched. -/
theorem C8_validation_failure_preserves_state_witness :
    ((some cW : Option Classifier) = none ∨ (some encW : Option LabelEncoder) = none ∨
      Payload.malformed = Payload.malformed ∨ Payload.malformed = Payload.wellFormed none ∨
      ∃ l, Payload.malformed = Payload.wellFormed (some l) ∧ (l.isEmpty ∨ l.length ≠ 63))
    ∧ (predict_gesture (some cW) (some encW) initialMetrics Payload.malformed 0).2
        = initialMetrics :=
  ⟨Or.inr (Or.inr (Or.inl rfl)),
    C8_validation_failure_preserves_state (some cW) (some encW) initialMetrics
      Payload.malformed 0 (Or.inr (Or.inr (Or.inl rfl)))⟩

/-- C9: a syntactically valid payload whose `landmarks` field is absent,
null, or an empty list is rejected with the wrong-count message
"Expected 63 landmark features" (the same as a non-63 list), not with
the malformed-input message. -/
theorem C9_missing_or_empty_landmarks (c : Classifier) (enc : LabelEncoder)
    (m : Metrics) (lat : ℚ) :
    (predict_gesture (some c) (some enc) m (Payload.wellFormed none) lat).1
        = Response.failure 400 "Expected 63 landmark features"
    ∧ (predict_gesture (some c) (some enc) m (Payload.wellFormed (some [])) lat).1
        = Response.failure 400 "Expected 63 landmark features"
    ∧ (predict_gesture (some c) (some enc) m (Payload.wellFormed none) lat).1
        ≠ Response.failure 400 "Invalid JSON input"
    ∧ (predict_gesture (some c) (some enc) m (Payload.wellFormed (some [])) lat).1
        ≠ Response.failure 400 "Invalid JSON input" := by
  have h1 : (predict_gesture (some c) (some enc) m (Payload.wellFormed none) lat).1
      = Response.failure 400 "Expected 63 landmark features" := rfl
  have h2 : (predict_gesture (some c) (some enc) m (Payload.wellFormed (some [])) lat).1
      = Response.failure 400 "Expected 63 landmark features" := by
    simp only [predict_gesture]
    rw [if_pos (show ([] : List ℚ).isEmpty = true ∨ ([] : List ℚ).length ≠ 63
      from Or.inl (by simp))]
  have hne : "Expected 63 landmark features" ≠ "Invalid JSON input" := by decide
  refine ⟨h1, h2, ?_, ?_⟩
  · rw [h1]
    intro hcontra
    injection hcontra with hst hdet
    exact hne hdet
  · rw [h2]
    intro hcontra
    injection hcontra with hst hdet
    exact hne hdet

/-- Whether the first list is a prefix of the second (character lists). -/
def chListPre : List Char → List Char → Bool
  | [], _ => true
  | _ :: _, [] => false
  | a :: as, b :: bs => a == b && chListPre as bs

/-- Whether the first character list occurs contiguously inside the
second (substring test used to ask whether an error message mentions a
given number). -/
def chListSub : List Char → List Char → Bool
  | needle, [] => needle.isEmpty
  | needle, h :: t => chListPre needle (h :: t) || chListSub needle t

/-- Counterexample for C4: a 50-landmark request is answered with the
fixed message "Expected 63 landmark features", which does not contain
"50" — indeed a 10-landmark request gets the very same message — so the
ValidationError does not state the actual count observed. -/
theorem C4_counterexample :
    (predict_gesture (some cW) (some encW) initialMetrics
        (Payload.wellFormed (some (List.replicate 50 0))) 0).1
      = Response.failure 400 "Expected 63 landmark features"
    ∧ chListSub ("50".data) ("Expected 63 landmark features".data) = false
    ∧ (predict_gesture (some cW) (some encW) initialMetrics
        (Payload.wellFormed (some (List.replicate 50 0))) 0).1
      = (predict_gesture (some cW) (some encW) initialMetrics
        (Payload.wellFormed (some (List.replicate 10 0))) 0).1 :=
  ⟨rfl, by decide, rfl⟩

/-- C4 amended: a well-formed payload whose landmark count is not 63
fails with a ValidationError whose message states the expected count
(63); the actual count appears only in the server log, not in the
response message. -/
theorem C4_wrong_count_message (c : Classifier) (enc : LabelEncoder)
    (m : Metrics) (lat : ℚ) (l : List ℚ) (h : l.length ≠ 63) :
    (predict_gesture (some c) (some enc) m (Payload.wellFormed (some l)) lat).1
        = Response.failure 400 "Expected 63 landmark features"
    ∧ chListSub ("63".data) ("Expected 63 landmark features".data) = true := by
  constructor
  · simp only [predict_gesture]
    rw [if_pos (Or.inr h)]
  · decide

/-- Witness for the amended C4 at a concrete 50-landmark input. -/
theorem C4_wrong_count_message_witness :
    (List.replicate 50 (0 : ℚ)).length ≠ 63
    ∧ ((predict_gesture (some cW) (some encW) initialMetrics
          (Payload.wellFormed (some (List.replicate 50 0))) 0).1
        = Response.failure 400 "Expected 63 landmark features"
      ∧ chListSub ("63".data) ("Expected 63 landmark features".data) = true) :=
  ⟨by decide,
    C4_wrong_count_message cW encW initialMetrics 0 (List.replicate 50 0) (by decide)⟩

/-- C1: when landmark 1 (wrist) and landmark 13 (middle fingertip) share
their (x, y) position, the scale factor is zero, the normalized frame is
non-finite, and the request is answered with an internal-error response
(500); it is never a success response (`spec-modelled:` the opaque
classifier rejecting non-finite features follows the spec's description
of the artifact). -/
theorem C1_zero_scale_internal_error (c : Classifier) (enc : LabelEncoder)
    (m : Metrics) (l : List ℚ) (lat : ℚ) (hlen : l.length = 63)
    (hx : l.getD 36 0 = l.getD 0 0) (hy : l.getD 37 0 = l.getD 1 0) :
    (∃ msg, (predict_gesture (some c) (some enc) m (Payload.wellFormed (some l)) lat).1
        = Response.failure 500 msg)
    ∧ ∀ g d conf,
      (predict_gesture (some c) (some enc) m (Payload.wellFormed (some l)) lat).1
        ≠ Response.success g d conf := by
  have hv : ¬(l.isEmpty ∨ l.length ≠ 63) := by
    rw [not_or]
    refine ⟨?_, not_not.mpr hlen⟩
    intro he
    rw [List.isEmpty_iff.mp he] at hlen
    simp at hlen
  have hinf := inferenceResult_degenerate c enc l hx hy
  have hresp : (predict_gesture (some c) (some enc) m (Payload.wellFormed (some l)) lat).1
      = Response.failure 500 nonFiniteMsg := by
    simp only [predict_gesture]
    rw [if_neg hv, hinf]
  refine ⟨⟨nonFiniteMsg, hresp⟩, fun g d conf => ?_⟩
  rw [hresp]
  intro hcontra
  exact Response.noConfusion hcontra

/-- Witness for C1: the all-zero 63-value input, where wrist and middle
fingertip coincide at the origin. -/
theorem C1_zero_scale_internal_error_witness :
    (List.replicate 63 (0 : ℚ)).length = 63
    ∧ (List.replicate 63 (0 : ℚ)).getD 36 0 = (List.replicate 63 (0 : ℚ)).getD 0 0
    ∧ (List.replicate 63 (0 : ℚ)).getD 37 0 = (List.replicate 63 (0 : ℚ)).getD 1 0
    ∧ ((∃ msg, (predict_gesture (some cW) (some encW) initialMetrics
          (Payload.wellFormed (some (List.replicate 63 0))) 0).1
            = Response.failure 500 msg)
      ∧ ∀ g d conf, (predict_gesture (some cW) (some encW) initialMetrics
          (Payload.wellFormed (some (List.replicate 63 0))) 0).1
            ≠ Response.success g d conf) :=
  ⟨rfl, rfl, rfl,
    C1_zero_scale_internal_error cW encW initialMetrics (List.replicate 63 0) 0 rfl rfl rfl⟩

/-- C7: a request that passes validation and then fails in the inference
body bumps `error_count` by exactly one, leaves `prediction_count` and
`latency_sum` unchanged, and is answered with a 500 response carrying
the exception's message verbatim. -/
theorem C7_inference_failure_effect (c : Classifier) (enc : LabelEncoder)
    (m : Metrics) (l : List ℚ) (lat : ℚ) (msg : String)
    (hv : ¬(l.isEmpty ∨ l.length ≠ 63))
    (herr : inferenceResult c enc l = Except.error msg) :
    (predict_gesture (some c) (some enc) m (Payload.wellFormed (some l)) lat).1
        = Response.failure 500 msg
    ∧ ((predict_gesture (some c) (some enc) m (Payload.wellFormed (some l)) lat).2).error_count
        = m.error_count + 1
    ∧ ((predict_gesture (some c) (some enc) m (Payload.wellFormed (some l)) lat).2).prediction_count
        = m.prediction_count
    ∧ ((predict_gesture (some c) (some enc) m (Payload.wellFormed (some l)) lat).2).latency_sum
        = m.latency_sum := by
  simp only [predict_gesture]
  rw [if_neg hv, herr]
  exact ⟨rfl, rfl, rfl, rfl⟩

/-- Witness for C7: the degenerate all-zero input makes the inference
body fail on the concrete classifier, and exactly the error counter
moves. -/
theorem C7_inference_failure_effect_witness :
    (¬((List.replicate 63 (0 : ℚ)).isEmpty ∨ (List.replicate 63 (0 : ℚ)).length ≠ 63))
    ∧ inferenceResult cW encW (List.replicate 63 0) = Except.error nonFiniteMsg
    ∧ ((predict_gesture (some cW) (some encW) initialMetrics
          (Payload.wellFormed (some (List.replicate 63 0))) 0).1
        = Response.failure 500 nonFiniteMsg
      ∧ ((predict_gesture (some cW) (some encW) initialMetrics
          (Payload.wellFormed (some (List.replicate 63 0))) 0).2).error_count
        = initialMetrics.error_count + 1
      ∧ ((predict_gesture (some cW) (some encW) initialMetrics
          (Payload.wellFormed (some (List.replicate 63 0))) 0).2).prediction_count
        = initialMetrics.prediction_count
      ∧ ((predict_gesture (some cW) (some encW) initialMetrics
          (Payload.wellFormed (some (List.replicate 63 0))) 0).2).latency_sum
        = initialMetrics.latency_sum) :=
  ⟨by decide, inferenceResult_degenerate cW encW (List.replicate 63 0) rfl rfl,
    C7_inference_failure_effect cW encW initialMetrics (List.replicate 63 0) 0 nonFiniteMsg
      (by decide) (inferenceResult_degenerate cW encW (List.replicate 63 0) rfl rfl)⟩

/-- C3: starting from a fresh process, after any request trace the
metrics report shows `prediction_count` = the number N of successful
classify calls, `error_count` = the number M of calls failing after
validation, `error_rate` = M / max(N, 1), and `average_latency` = the
sum of the successes' latencies divided by N (0 when N = 0). -/
theorem C3_metrics_report (c : Classifier) (enc : LabelEncoder)
    (reqs : List (Payload × ℚ)) :
    (get_metrics (processAll (some c) (some enc) reqs initialMetrics)).prediction_count
        = reqs.countP (fun r => succeedsB c enc r.1)
    ∧ (get_metrics (processAll (some c) (some enc) reqs initialMetrics)).error_count
        = reqs.countP (fun r => failsAfterValidB c enc r.1)
    ∧ (get_metrics (processAll (some c) (some enc) reqs initialMetrics)).error_rate
        = ((reqs.countP (fun r => failsAfterValidB c enc r.1) : ℕ) : ℚ)
          / ((max (reqs.countP (fun r => succeedsB c enc r.1)) 1 : ℕ) : ℚ)
    ∧ (get_metrics (processAll (some c) (some enc) reqs initialMetrics)).average_latency
        = if 0 < reqs.countP (fun r => succeedsB c enc r.1) then
            ((reqs.filter (fun r => succeedsB c enc r.1)).map Prod.snd).sum
              / ((reqs.countP (fun r => succeedsB c enc r.1) : ℕ) : ℚ)
          else 0 := by
  rw [processAll_spec]
  simp only [get_metrics, initialMetrics, Nat.zero_add, zero_add]
  exact ⟨trivial, trivial, trivial, trivial⟩

/-- C10: the report's `data_metrics.input_validation_errors` field is a
copy of the inference error counter in every state; over a fresh-process
trace it therefore equals the number of post-validation inference
failures, not the number of requests rejected by validation. -/
theorem C10_input_validation_errors_mirror (c : Classifier) (enc : LabelEncoder)
    (reqs : List (Payload × ℚ)) :
    (∀ m : Metrics, (get_metrics m).input_validation_errors = m.error_count)
    ∧ (get_metrics (processAll (some c) (some enc) reqs initialMetrics)).input_validation_errors
        = reqs.countP (fun r => failsAfterValidB c enc r.1) := by
  refine ⟨fun m => rfl, ?_⟩
  rw [processAll_spec]
  simp only [get_metrics, initialMetrics, Nat.zero_add, zero_add]

/-- A 63-value non-empty list passes the `not landmarks or len != 63`
check. -/
theorem length63_passes (l : List ℚ) (hlen : l.length = 63) :
    ¬(l.isEmpty ∨ l.length ≠ 63) := by
  rw [not_or]
  refine ⟨?_, not_not.mpr hlen⟩
  intro he
  rw [List.isEmpty_iff.mp he] at hlen
  simp at hlen

/-- C6: on a valid 63-value input with a non-degenerate pose, provided
the opaque classifier yields a probability distribution whose predicted
class attains the maximum and is known to the decoder (`spec-modelled:`
that contract is the spec's description of the artifacts), the response
is a success whose confidence is the maximum per-class probability
(hence in [0, 1]) and whose gesture is the decoder's label for a class
attaining that maximum, so it belongs to the decoder's vocabulary. -/
theorem C6_confidence_and_vocabulary (c : Classifier) (enc : LabelEncoder)
    (m : Metrics) (l : List ℚ) (lat : ℚ) (hlen : l.length = 63)
    (hs : (l.getD 36 0 - l.getD 0 0) ^ 2 + (l.getD 37 0 - l.getD 1 0) ^ 2 ≠ 0)
    (hdist : ∀ ff : FiniteFrame, c.probaFn ff ≠ [] ∧ ∀ q ∈ c.probaFn ff, 0 ≤ q ∧ q ≤ 1)
    (hattain : ∀ ff : FiniteFrame, ∀ q ∈ c.probaFn ff,
      q ≤ (c.probaFn ff).getD (c.predFn ff) 0)
    (hdec : ∀ ff : FiniteFrame, c.predFn ff < enc.classes.length) :
    ∃ ff : FiniteFrame, ∃ gesture : String, ∃ conf : ℝ,
      (normalize_landmarks (buildFrame l)).toFinite = some ff
      ∧ (predict_gesture (some c) (some enc) m (Payload.wellFormed (some l)) lat).1
          = Response.success gesture (GESTURE_MAPPING gesture) conf
      ∧ conf = listMaxD (c.probaFn ff)
      ∧ 0 ≤ conf ∧ conf ≤ 1
      ∧ gesture = enc.classes.get ⟨c.predFn ff, hdec ff⟩
      ∧ gesture ∈ enc.classes
      ∧ (c.probaFn ff).getD (c.predFn ff) 0 = conf := by
  obtain ⟨ff, hsome, hok⟩ := inferenceResult_ok c enc l hs (fun ff => (hdist ff).1) hdec
  have hv := length63_passes l hlen
  have hresp : (predict_gesture (some c) (some enc) m (Payload.wellFormed (some l)) lat).1
      = Response.success (enc.classes.get ⟨c.predFn ff, hdec ff⟩)
          (GESTURE_MAPPING (enc.classes.get ⟨c.predFn ff, hdec ff⟩))
          (listMaxD (c.probaFn ff)) := by
    simp only [predict_gesture]
    rw [if_neg hv, hok]
  have hmem : listMaxD (c.probaFn ff) ∈ c.probaFn ff := by
    cases hps : c.probaFn ff with
    | nil => exact absurd hps (hdist ff).1
    | cons a as => exact listMaxD_mem a as
  have hbounds := (hdist ff).2 _ hmem
  have hle1 : (c.probaFn ff).getD (c.predFn ff) 0 ≤ listMaxD (c.probaFn ff) := by
    by_cases hp : c.predFn ff < (c.probaFn ff).length
    · have hmem2 := getD_mem_of_lt (c.probaFn ff) (c.predFn ff) hp
      cases hps : c.probaFn ff with
      | nil => exact absurd hps (hdist ff).1
      | cons a as => exact le_listMaxD a _ as (hps ▸ hmem2)
    · rw [List.getD_eq_default _ _ (not_lt.mp hp)]
      exact hbounds.1
  have hle2 : listMaxD (c.probaFn ff) ≤ (c.probaFn ff).getD (c.predFn ff) 0 :=
    hattain ff _ hmem
  exact ⟨ff, enc.classes.get ⟨c.predFn ff, hdec ff⟩, listMaxD (c.probaFn ff),
    hsome, hresp, rfl, hbounds.1, hbounds.2, rfl, List.get_mem _ _ _,
    le_antisymm hle1 hle2⟩

/-- Concrete 63-value input: x1 = 1, everything else 0, so wrist and
middle fingertip differ and the pose is non-degenerate. -/
def lW : List ℚ := 1 :: List.replicate 62 0

theorem lW_len : lW.length = 63 := rfl

theorem lW_scale_ne :
    (lW.getD 36 0 - lW.getD 0 0) ^ 2 + (lW.getD 37 0 - lW.getD 1 0) ^ 2 ≠ 0 := by
  show ((0 : ℚ) - 1) ^ 2 + ((0 : ℚ) - 0) ^ 2 ≠ 0
  norm_num

theorem cW_dist : ∀ ff : FiniteFrame,
    cW.probaFn ff ≠ [] ∧ ∀ q ∈ cW.probaFn ff, 0 ≤ q ∧ q ≤ 1 := by
  intro ff
  constructor
  · simp [cW]
  · intro q hq
    rw [show cW.probaFn ff = [1] from rfl, List.mem_singleton] at hq
    rw [hq]
    norm_num

theorem cW_attain : ∀ ff : FiniteFrame, ∀ q ∈ cW.probaFn ff,
    q ≤ (cW.probaFn ff).getD (cW.predFn ff) 0 := by
  intro ff q hq
  rw [show cW.probaFn ff = [1] from rfl, List.mem_singleton] at hq
  rw [hq]
  rfl

theorem hdecW : ∀ ff : FiniteFrame, cW.predFn ff < encW.classes.length :=
  fun _ => Nat.one_pos

/-- Witness for C6: the concrete input `lW` with the one-class concrete
classifier and decoder. -/
theorem C6_confidence_and_vocabulary_witness :
    lW.length = 63
    ∧ ((lW.getD 36 0 - lW.getD 0 0) ^ 2 + (lW.getD 37 0 - lW.getD 1 0) ^ 2 ≠ 0)
    ∧ (∀ ff : FiniteFrame, cW.probaFn ff ≠ [] ∧ ∀ q ∈ cW.probaFn ff, 0 ≤ q ∧ q ≤ 1)
    ∧ (∀ ff : FiniteFrame, ∀ q ∈ cW.probaFn ff,
        q ≤ (cW.probaFn ff).getD (cW.predFn ff) 0)
    ∧ (∀ ff : FiniteFrame, cW.predFn ff < encW.classes.length)
    ∧ (∃ ff : FiniteFrame, ∃ gesture : String, ∃ conf : ℝ,
        (normalize_landmarks (buildFrame lW)).toFinite = some ff
        ∧ (predict_gesture (some cW) (some encW) initialMetrics
            (Payload.wellFormed (some lW)) 0).1
            = Response.success gesture (GESTURE_MAPPING gesture) conf
        ∧ conf = listMaxD (cW.probaFn ff)
        ∧ 0 ≤ conf ∧ conf ≤ 1
        ∧ gesture = encW.classes.get ⟨cW.predFn ff, hdecW ff⟩
        ∧ gesture ∈ encW.classes
        ∧ (cW.probaFn ff).getD (cW.predFn ff) 0 = conf) :=
  ⟨lW_len, lW_scale_ne, cW_dist, cW_attain, hdecW,
    C6_confidence_and_vocabulary cW encW initialMetrics lW 0 lW_len lW_scale_ne
      cW_dist cW_attain hdecW⟩
